import Mathlib

/-!
# Verification of the `XrayScanClient` polling loop

A shallow embedding of `src/Xray/XrayScanClient.ts`: the `graph` operation
submits a scan request (`POST api/v1/scan/graph`) and then polls
(`GET api/v1/scan/graph/<scan_id>?...`) up to 60 times, classifying each
poll by its HTTP status (200 terminal success, 202 in progress, anything
else terminal failure), reporting progress and sleeping between polls.

The embedding makes the collaborators explicit: an `Env` supplies the
behaviour of the HTTP transport (`doAuthRequest`) and of the caller's
`checkCanceled` callback at each call site, and the interpreter returns the
ordered trace of observable effects (requests issued, progress-sink writes,
sleeps) together with the call's outcome.

JavaScript particulars are modelled faithfully:
* `undefined` values are `Option.none`; string interpolation of `undefined`
  yields the text "undefined";
* truthiness of a number (`if (receivedStatus)`, `if (response.progress_percentage)`)
  is "present and non-zero";
* a rejected transport promise leaves the awaited `response` equal to
  `undefined` (the `.catch` callback returns nothing), so a subsequent
  property access on it raises a `TypeError`, modelled by `Result.typeError`.
-/

namespace XrayScanClient

/-- `XrayScanClient.scanGraphEndpoint`. -/
def scanGraphEndpoint : String := "api/v1/scan/graph"

/-- `XrayScanClient.SLEEP_INTERVAL_MILLISECONDS`, the default poll interval. -/
def SLEEP_INTERVAL_MILLISECONDS : Nat := 5000

/-- `XrayScanClient.MAX_ATTEMPTS`, the poll-attempt budget. -/
def MAX_ATTEMPTS : Nat := 60

/-- The fields of `IGraphResponse` that the client reads: `scan_id` (used to
build the poll URL) and `progress_percentage` (forwarded to the progress
sink on 202). `other` stands for the rest of the payload, so that
"returned verbatim" is expressible. Every field is optional, as any
property of a JavaScript object may be absent. -/
structure GraphResponse where
  scan_id : Option String
  progress_percentage : Option Nat
  other : Option Nat
deriving Repr, DecidableEq

/-- The opaque scan-request payload (`IGraphRequestModel`); the client never
inspects it. -/
structure GraphRequestModel where
  data : Nat
deriving Repr, DecidableEq

/-- `{} as IGraphResponse`: the empty object returned for a falsy request. -/
def emptyResponse : GraphResponse := ⟨none, none, none⟩

/-- JavaScript coercion of a possibly-`undefined` string to a string, as in
template literals and string concatenation: `undefined` prints as
"undefined". -/
def jsShow : Option String → String
  | none => "undefined"
  | some s => s

/-- JavaScript truthiness of a possibly-`undefined` number: truthy iff
present and non-zero. -/
def truthy : Option Nat → Bool
  | none => false
  | some n => n != 0

/-- An observable effect of a `graph` call, in order of occurrence. -/
inductive Event where
  | checkCanceled : Event
  | postReq : String → Event
  | getReq : String → Event
  | setPercentage : Nat → Event
  | sleep : Nat → Event
deriving Repr, DecidableEq

/-- The outcome of a `graph` / `getScanGraphResults` call.
`ok r` is a normal return (with `none` for returning `undefined`);
`thrown msg` is an `Error` thrown by the client itself; `raised e` is a
foreign exception (from `checkCanceled` or the submit transport call)
propagating unwrapped, identified by an opaque tag; `typeError` is the
runtime error of reading a property of `undefined`. -/
inductive Result where
  | ok : Option GraphResponse → Result
  | thrown : String → Result
  | raised : Nat → Result
  | typeError : Result
deriving Repr, DecidableEq

/-- The transport's behaviour on one poll attempt. `fulfilled status resp`:
`doAuthRequest` resolved (so `validateStatus` accepted `status`, having
recorded it into `receivedStatus`). `rejected status message`: the promise
rejected; the `.catch` callback records `reason.response?.status` and
`reason?.message`. -/
inductive PollReply where
  | fulfilled : Nat → GraphResponse → PollReply
  | rejected : Option Nat → Option String → PollReply
deriving Repr, DecidableEq

/-- The environment of one `graph` call: the behaviour of `checkCanceled`
at each call site (`some e` means it throws the foreign error `e`), the
submit transport call's outcome, and each poll attempt's transport
outcome. -/
structure Env where
  cancelSubmit : Option Nat
  submit : Except Nat GraphResponse
  cancelPoll : Nat → Option Nat
  poll : Nat → PollReply

/-- `receivedStatus` as observed after attempt `i`: the status recorded by
`validateStatus` when the promise resolved, or `reason.response?.status`
when it rejected. -/
def receivedStatusOf : PollReply → Option Nat
  | .fulfilled s _ => some s
  | .rejected st _ => st

/-- The awaited `response` value: the payload on resolution, `undefined`
on rejection (the `.catch` callback returns nothing). -/
def responseOf : PollReply → Option GraphResponse
  | .fulfilled _ r => some r
  | .rejected _ _ => none

/-- The `message` local: `undefined` on resolution, `reason?.message` on
rejection. -/
def messageOf : PollReply → Option String
  | .fulfilled _ _ => none
  | .rejected _ m => m

/-- A single-quote character, for building the thrown messages. -/
def sq : String := String.mk [Char.ofNat 39]

/-- `Received unexpected status (status) from Xray: (message)`, the message of
the error thrown on a truthy non-200/202 status. -/
def unexpectedStatusMsg (status : Nat) (message : Option String) : String :=
  "Received unexpected status " ++ sq ++ toString status ++ sq ++
    " from Xray: " ++ jsShow message

/-- `Received response from Xray: (message)`, the message of the error thrown
when no (truthy) status was captured. -/
def transportFailureMsg (message : Option String) : String :=
  "Received response from Xray: " ++ jsShow message

/-- The timeout error message thrown when the attempt budget is exhausted. -/
def timeoutMsg : String := "Xray get scan graph exceeded the timeout."

/-- The poll URL built at the top of `getScanGraphResults`:
`api/v1/scan/graph/<scanId>?include_licenses=true&include_vulnerabilities=<bool>`. -/
def scanGraphUrl (scanId : String) (includeVulnerabilities : Bool) : String :=
  scanGraphEndpoint ++ "/" ++ scanId ++ "?include_licenses=true" ++
    ("&include_vulnerabilities=" ++ (if includeVulnerabilities then "true" else "false"))

/-- The progress-sink writes performed inside a 202 iteration:
`if (response.progress_percentage) progress.setPercentage(response.progress_percentage)`
(a truthiness test, so a present-but-zero percentage writes nothing). -/
def progressEvents (resp : GraphResponse) : List Event :=
  match resp.progress_percentage with
  | some p => if p != 0 then [Event.setPercentage p] else []
  | none => []

/-- The `for` loop of `getScanGraphResults`, from attempt `i` with `fuel`
attempts of the budget left. Each iteration: `checkCanceled()`, issue the
GET, classify `receivedStatus` (200 return / 202 progress-and-sleep /
otherwise throw), and recurse. Exhausted fuel is the loop falling through
to the timeout throw. -/
def pollLoop (env : Env) (url : String) (sleepMs : Nat) : Nat → Nat → List Event × Result
  | _, 0 => ([], Result.thrown timeoutMsg)
  | i, fuel + 1 =>
    match env.cancelPoll i with
    | some e => ([Event.checkCanceled], Result.raised e)
    | none =>
      let reply := env.poll i
      let receivedStatus := receivedStatusOf reply
      let response := responseOf reply
      let message := messageOf reply
      let pre := [Event.checkCanceled, Event.getReq url]
      if receivedStatus = some 200 then
        (pre, Result.ok response)
      else if receivedStatus = some 202 then
        match response with
        | none => (pre, Result.typeError)
        | some resp =>
          let rest := pollLoop env url sleepMs (i + 1) fuel
          (pre ++ progressEvents resp ++ [Event.sleep sleepMs] ++ rest.1, rest.2)
      else
        match receivedStatus with
        | some s =>
          if s != 0 then (pre, Result.thrown (unexpectedStatusMsg s message))
          else (pre, Result.thrown (transportFailureMsg message))
        | none => (pre, Result.thrown (transportFailureMsg message))

/-- `getScanGraphResults(scanId, progress, checkCanceled, includeVulnerabilities,
sleepIntervalMilliseconds)`: build the poll URL and run the bounded loop. -/
def getScanGraphResults (env : Env) (scanId : String) (includeVulnerabilities : Bool)
    (sleepMs : Nat) : List Event × Result :=
  pollLoop env (scanGraphUrl scanId includeVulnerabilities) sleepMs 0 MAX_ATTEMPTS

/-- `projectKey !== undefined && projectKey.length > 0`. -/
def projectProvided : Option String → Bool
  | none => false
  | some k => decide (0 < k.length)

/-- The submit URL: `api/v1/scan/graph` with `?project=<key>` appended when a
project key is provided. -/
def submitUrl (projectKey : Option String) : String :=
  scanGraphEndpoint ++ (if projectProvided projectKey then "?project=" ++ jsShow projectKey else "")

/-- The body of `graph` (the `try` block): a falsy request returns the empty
object; otherwise `checkCanceled()`, the submit POST, and delegation to
`getScanGraphResults` with `includeVulnerabilities = !projectProvided`. -/
def graphBody (env : Env) (request : Option GraphRequestModel) (projectKey : Option String)
    (sleepMs : Nat) : List Event × Result :=
  match request with
  | none => ([], Result.ok (some emptyResponse))
  | some _ =>
    match env.cancelSubmit with
    | some e => ([Event.checkCanceled], Result.raised e)
    | none =>
      match env.submit with
      | Except.error e => ([Event.checkCanceled, Event.postReq (submitUrl projectKey)], Result.raised e)
      | Except.ok resp =>
        let rest := getScanGraphResults env (jsShow resp.scan_id)
          (!projectProvided projectKey) sleepMs
        ([Event.checkCanceled, Event.postReq (submitUrl projectKey)] ++ rest.1, rest.2)

/-- `graph(request, progress, checkCanceled, projectKey, sleepIntervalMilliseconds)`:
the `try` body followed by the `finally` clause `progress.setPercentage(100)`,
which runs on every exit path. -/
def graph (env : Env) (request : Option GraphRequestModel) (projectKey : Option String)
    (sleepMs : Nat) : List Event × Result :=
  let body := graphBody env request projectKey sleepMs
  (body.1 ++ [Event.setPercentage 100], body.2)

/-- Whether an event is a poll GET request. -/
def isGetReq : Event → Bool
  | Event.getReq _ => true
  | _ => false

/-- Whether an event is a submit POST request. -/
def isPostReq : Event → Bool
  | Event.postReq _ => true
  | _ => false

/-- Whether an event is a timed sleep. -/
def isSleep : Event → Bool
  | Event.sleep _ => true
  | _ => false

/-- The number of poll GET requests in a trace. -/
def countGetReqs (evs : List Event) : Nat := (evs.filter isGetReq).length

/-- The number of sleeps in a trace. -/
def countSleeps (evs : List Event) : Nat := (evs.filter isSleep).length

/-- The trace of `n` consecutive in-progress (202) iterations whose response
payloads are given by `f`: each contributes cancel check, GET, its progress
write (if any), and a sleep. -/
def prefix202 (f : Nat → GraphResponse) (url : String) (sleepMs : Nat) : Nat → List Event
  | 0 => []
  | n + 1 =>
    ([Event.checkCanceled, Event.getReq url] ++ progressEvents (f 0) ++ [Event.sleep sleepMs]) ++
      prefix202 (fun j => f (j + 1)) url sleepMs n

/-- Whether an event is a progress-sink write. -/
def isSetPercentage : Event → Bool
  | Event.setPercentage _ => true
  | _ => false

/-! ### Concrete test environments -/

/-- One in-progress attempt reporting 5%, then a 200 with payload. -/
def envOne202 : Env :=
  ⟨none, Except.ok emptyResponse, fun _ => none,
   fun i => if i = 0 then PollReply.fulfilled 202 ⟨none, some 5, none⟩
            else PollReply.fulfilled 200 ⟨none, none, some 3⟩⟩

/-- Every attempt answers 202 at 50%: the scan never finishes. -/
def envAll202 : Env :=
  ⟨none, Except.ok emptyResponse, fun _ => none,
   fun _ => PollReply.fulfilled 202 ⟨none, some 50, none⟩⟩

/-- Every poll attempt is rejected with HTTP status 500. -/
def envRej500 : Env :=
  ⟨none, Except.ok emptyResponse, fun _ => none,
   fun _ => PollReply.rejected (some 500) (some "boom")⟩

/-- Every poll attempt is rejected with a reason carrying status 200 —
never 202, so the claim C10 precondition holds for every attempt this
environment can serve. -/
def envRej200 : Env :=
  ⟨none, Except.ok emptyResponse, fun _ => none,
   fun _ => PollReply.rejected (some 200) (some "nope")⟩

/-- Attempt 0 answers 202 carrying `progress_percentage: 0` (present but
falsy), attempt 1 answers 200. -/
def env202zero : Env :=
  ⟨none, Except.ok emptyResponse, fun _ => none,
   fun i => if i = 0 then PollReply.fulfilled 202 ⟨none, some 0, none⟩
            else PollReply.fulfilled 200 ⟨none, none, some 7⟩⟩

/-- Submit succeeds with scan id `xyz`; the first poll answers 200. -/
def envQuick200 : Env :=
  ⟨none, Except.ok ⟨some "xyz", none, none⟩, fun _ => none,
   fun _ => PollReply.fulfilled 200 emptyResponse⟩

/-- `checkCanceled` throws (error tag 9) at the first poll attempt. -/
def envCancelAt0 : Env :=
  ⟨none, Except.ok ⟨some "xyz", none, none⟩,
   fun i => if i = 0 then some 9 else none,
   fun _ => PollReply.fulfilled 202 ⟨none, some 10, none⟩⟩

/-! ## Step lemmas for the poll loop -/

theorem pollLoop_cancel (env : Env) (url : String) (s i fuel e : Nat)
    (hc : env.cancelPoll i = some e) :
    pollLoop env url s i (fuel + 1) = ([Event.checkCanceled], Result.raised e) := by
  simp [pollLoop, hc]

theorem pollLoop_200 (env : Env) (url : String) (s i fuel : Nat) (r : GraphResponse)
    (hc : env.cancelPoll i = none) (hp : env.poll i = .fulfilled 200 r) :
    pollLoop env url s i (fuel + 1) =
      ([Event.checkCanceled, Event.getReq url], Result.ok (some r)) := by
  simp [pollLoop, hc, hp, receivedStatusOf, responseOf]

theorem pollLoop_202 (env : Env) (url : String) (s i fuel : Nat) (r : GraphResponse)
    (hc : env.cancelPoll i = none) (hp : env.poll i = .fulfilled 202 r) :
    pollLoop env url s i (fuel + 1) =
      ([Event.checkCanceled, Event.getReq url] ++ progressEvents r ++ [Event.sleep s] ++
        (pollLoop env url s (i + 1) fuel).1,
       (pollLoop env url s (i + 1) fuel).2) := by
  simp [pollLoop, hc, hp, receivedStatusOf, responseOf]

theorem pollLoop_rejected_some (env : Env) (url : String) (s i fuel st : Nat)
    (m : Option String)
    (hc : env.cancelPoll i = none) (hp : env.poll i = .rejected (some st) m)
    (h200 : st ≠ 200) (h202 : st ≠ 202) (h0 : st ≠ 0) :
    pollLoop env url s i (fuel + 1) =
      ([Event.checkCanceled, Event.getReq url],
       Result.thrown (unexpectedStatusMsg st m)) := by
  simp [pollLoop, hc, hp, receivedStatusOf, responseOf, messageOf, h200, h202, h0]

theorem pollLoop_rejected_none (env : Env) (url : String) (s i fuel : Nat)
    (m : Option String)
    (hc : env.cancelPoll i = none) (hp : env.poll i = .rejected none m) :
    pollLoop env url s i (fuel + 1) =
      ([Event.checkCanceled, Event.getReq url],
       Result.thrown (transportFailureMsg m)) := by
  simp [pollLoop, hc, hp, receivedStatusOf, responseOf, messageOf]

theorem pollLoop_rejected_zero (env : Env) (url : String) (s i fuel : Nat)
    (m : Option String)
    (hc : env.cancelPoll i = none) (hp : env.poll i = .rejected (some 0) m) :
    pollLoop env url s i (fuel + 1) =
      ([Event.checkCanceled, Event.getReq url],
       Result.thrown (transportFailureMsg m)) := by
  simp [pollLoop, hc, hp, receivedStatusOf, responseOf, messageOf]

/-! ## Trace characterization of runs of in-progress responses -/

theorem pollLoop_prefix202 (env : Env) (url : String) (s : Nat) :
    ∀ (n : Nat) (f : Nat → GraphResponse) (i fuel : Nat), n ≤ fuel →
    (∀ j, j < n → env.cancelPoll (i + j) = none ∧ env.poll (i + j) = .fulfilled 202 (f j)) →
    pollLoop env url s i fuel =
      (prefix202 f url s n ++ (pollLoop env url s (i + n) (fuel - n)).1,
       (pollLoop env url s (i + n) (fuel - n)).2) := by
  intro n
  induction n with
  | zero => intro f i fuel _ _; simp [prefix202]
  | succ n ih =>
    intro f i fuel hle h
    obtain ⟨fuel', rfl⟩ : ∃ fuel', fuel = fuel' + 1 := ⟨fuel - 1, by omega⟩
    obtain ⟨hc0, hp0⟩ := h 0 (by omega)
    rw [pollLoop_202 env url s i fuel' (f 0) (by simpa using hc0) (by simpa using hp0)]
    have hrec := ih (fun j => f (j + 1)) (i + 1) fuel' (by omega)
      (by intro j hj
          have := h (j + 1) (by omega)
          constructor
          · have h1 := this.1; rw [show i + 1 + j = i + (j + 1) by omega]; exact h1
          · have h2 := this.2; rw [show i + 1 + j = i + (j + 1) by omega]; exact h2)
    rw [hrec]
    rw [show i + 1 + n = i + (n + 1) by omega, show fuel' - n = fuel' + 1 - (n + 1) by omega]
    simp [prefix202]

theorem countGetReqs_append (a b : List Event) :
    countGetReqs (a ++ b) = countGetReqs a + countGetReqs b := by
  simp [countGetReqs, List.filter_append]

theorem countSleeps_append (a b : List Event) :
    countSleeps (a ++ b) = countSleeps a + countSleeps b := by
  simp [countSleeps, List.filter_append]

theorem countGetReqs_progressEvents (r : GraphResponse) :
    countGetReqs (progressEvents r) = 0 := by
  unfold progressEvents
  cases hp : r.progress_percentage
  · rfl
  · dsimp only; split <;> rfl

theorem countSleeps_progressEvents (r : GraphResponse) :
    countSleeps (progressEvents r) = 0 := by
  unfold progressEvents
  cases hp : r.progress_percentage
  · rfl
  · dsimp only; split <;> rfl

theorem countGetReqs_prefix202 (url : String) (s : Nat) :
    ∀ (n : Nat) (f : Nat → GraphResponse), countGetReqs (prefix202 f url s n) = n := by
  intro n
  induction n with
  | zero => intro f; rfl
  | succ n ih =>
    intro f
    rw [prefix202, countGetReqs_append, ih]
    rw [countGetReqs_append, countGetReqs_append, countGetReqs_progressEvents]
    have h1 : countGetReqs [Event.checkCanceled, Event.getReq url] = 1 := rfl
    have h2 : countGetReqs [Event.sleep s] = 0 := rfl
    omega

theorem countSleeps_prefix202 (url : String) (s : Nat) :
    ∀ (n : Nat) (f : Nat → GraphResponse), countSleeps (prefix202 f url s n) = n := by
  intro n
  induction n with
  | zero => intro f; rfl
  | succ n ih =>
    intro f
    rw [prefix202, countSleeps_append, ih]
    rw [countSleeps_append, countSleeps_append, countSleeps_progressEvents]
    have h1 : countSleeps [Event.checkCanceled, Event.getReq url] = 0 := rfl
    have h2 : countSleeps [Event.sleep s] = 1 := rfl
    omega

theorem prefix202_getLast (url : String) (s : Nat) :
    ∀ (n : Nat) (f : Nat → GraphResponse),
      (prefix202 f url s (n + 1)).getLast? = some (Event.sleep s) := by
  intro n
  induction n with
  | zero =>
    intro f
    rw [prefix202]
    rw [show prefix202 (fun j => f (j + 1)) url s 0 = [] from rfl]
    rw [List.append_nil, List.getLast?_concat]
  | succ n ih =>
    intro f
    rw [prefix202, List.getLast?_append, ih]
    rfl

/-! ## Shape lemmas for the remaining poll outcomes -/

theorem pollLoop_fulfilled_other (env : Env) (url : String) (s i fuel st : Nat)
    (r : GraphResponse)
    (hc : env.cancelPoll i = none) (hp : env.poll i = .fulfilled st r)
    (h200 : st ≠ 200) (h202 : st ≠ 202) :
    (pollLoop env url s i (fuel + 1)).1 = [Event.checkCanceled, Event.getReq url] := by
  simp only [pollLoop, hc, hp, receivedStatusOf, responseOf, messageOf]
  simp only [Option.some.injEq, h200, h202, if_false, reduceIte]
  split <;> rfl

theorem pollLoop_rejected_fst (env : Env) (url : String) (s i fuel : Nat)
    (st : Option Nat) (m : Option String)
    (hc : env.cancelPoll i = none) (hp : env.poll i = .rejected st m) :
    (pollLoop env url s i (fuel + 1)).1 = [Event.checkCanceled, Event.getReq url] := by
  simp only [pollLoop, hc, hp, receivedStatusOf, responseOf, messageOf]
  split
  · rfl
  · split
    · rfl
    · split
      · split <;> rfl
      · rfl

theorem mem_progressEvents (r : GraphResponse) (e : Event) (he : e ∈ progressEvents r) :
    ∃ p, e = Event.setPercentage p := by
  unfold progressEvents at he
  rcases hp : r.progress_percentage with _ | p <;> rw [hp] at he
  · simp at he
  · dsimp only at he
    split at he
    · simp at he; exact ⟨p, he⟩
    · simp at he

/-- Every event a poll loop emits is a cancel check, a GET to the loop's one
URL, a progress write, or a sleep of the loop's interval. -/
theorem pollLoop_fst_mem (env : Env) (url : String) (s : Nat) :
    ∀ (fuel i : Nat) (e : Event), e ∈ (pollLoop env url s i fuel).1 →
      e = Event.checkCanceled ∨ e = Event.getReq url ∨
      (∃ p, e = Event.setPercentage p) ∨ e = Event.sleep s := by
  intro fuel
  induction fuel with
  | zero => intro i e he; simp [pollLoop] at he
  | succ fuel ih =>
    intro i e he
    rcases hc : env.cancelPoll i with _ | e0
    · rcases hp : env.poll i with ⟨st, r⟩ | ⟨st, m⟩
      · by_cases h200 : st = 200
        · subst h200
          rw [pollLoop_200 env url s i fuel r hc hp] at he
          simp at he
          rcases he with rfl | rfl
          · exact Or.inl rfl
          · exact Or.inr (Or.inl rfl)
        · by_cases h202 : st = 202
          · subst h202
            rw [pollLoop_202 env url s i fuel r hc hp] at he
            simp only [List.append_assoc, List.cons_append, List.nil_append,
              List.mem_cons, List.mem_append, List.not_mem_nil, or_false] at he
            have hpr := mem_progressEvents r e
            have hrest := ih (i + 1) e
            tauto
          · rw [pollLoop_fulfilled_other env url s i fuel st r hc hp h200 h202] at he
            simp at he
            rcases he with rfl | rfl
            · exact Or.inl rfl
            · exact Or.inr (Or.inl rfl)
      · rw [pollLoop_rejected_fst env url s i fuel st m hc hp] at he
        simp at he
        rcases he with rfl | rfl
        · exact Or.inl rfl
        · exact Or.inr (Or.inl rfl)
    · rw [pollLoop_cancel env url s i fuel e0 hc] at he
      simp at he
      subst he
      exact Or.inl rfl

theorem pollLoop_getReq_url (env : Env) (url : String) (s fuel i : Nat) (u : String)
    (h : Event.getReq u ∈ (pollLoop env url s i fuel).1) : u = url := by
  rcases pollLoop_fst_mem env url s fuel i _ h with h1 | h1 | ⟨p, h1⟩ | h1 <;> simp_all

theorem pollLoop_no_postReq (env : Env) (url : String) (s fuel i : Nat) :
    (pollLoop env url s i fuel).1.filter isPostReq = [] := by
  rw [List.filter_eq_nil_iff]
  intro a ha
  rcases pollLoop_fst_mem env url s fuel i a ha with rfl | rfl | ⟨p, rfl⟩ | rfl <;>
    simp [isPostReq]

/-- As long as no rejected transport promise reports status 202, the loop
never reaches the property access on the `undefined` response. -/
theorem pollLoop_no_typeError (env : Env) (url : String) (s : Nat)
    (h : ∀ i st m, env.poll i = PollReply.rejected st m → st ≠ some 202) :
    ∀ fuel i, (pollLoop env url s i fuel).2 ≠ Result.typeError := by
  intro fuel
  induction fuel with
  | zero => intro i; simp [pollLoop]
  | succ fuel ih =>
    intro i
    rcases hc : env.cancelPoll i with _ | e0
    · rcases hp : env.poll i with ⟨st, r⟩ | ⟨st, m⟩
      · by_cases h200 : st = 200
        · subst h200; rw [pollLoop_200 env url s i fuel r hc hp]; simp
        · by_cases h202 : st = 202
          · subst h202; rw [pollLoop_202 env url s i fuel r hc hp]; exact ih (i + 1)
          · simp only [pollLoop, hc, hp, receivedStatusOf, responseOf, messageOf]
            simp only [Option.some.injEq, h200, h202, if_false, reduceIte]
            split <;> simp
      · have hne := h i st m hp
        rcases st with _ | n
        · rw [pollLoop_rejected_none env url s i fuel m hc hp]; simp
        · by_cases h200 : n = 200
          · subst h200
            simp [pollLoop, hc, hp, receivedStatusOf, responseOf]
          · by_cases h202 : n = 202
            · exact absurd (by rw [h202]) hne
            · by_cases h0 : n = 0
              · subst h0
                simp [pollLoop, hc, hp, receivedStatusOf, responseOf, messageOf]
              · rw [pollLoop_rejected_some env url s i fuel n m hc hp h200 h202 h0]
                simp
    · rw [pollLoop_cancel env url s i fuel e0 hc]; simp

/-! ## Unfolding lemmas for `graph` -/

theorem graph_eq (env : Env) (request : Option GraphRequestModel)
    (projectKey : Option String) (sleepMs : Nat) :
    graph env request projectKey sleepMs =
      ((graphBody env request projectKey sleepMs).1 ++ [Event.setPercentage 100],
       (graphBody env request projectKey sleepMs).2) := rfl

theorem graphBody_some (env : Env) (req : GraphRequestModel) (pk : Option String) (s : Nat)
    (resp : GraphResponse)
    (hcs : env.cancelSubmit = none) (hsub : env.submit = Except.ok resp) :
    graphBody env (some req) pk s =
      ([Event.checkCanceled, Event.postReq (submitUrl pk)] ++
        (getScanGraphResults env (jsShow resp.scan_id) (!projectProvided pk) s).1,
       (getScanGraphResults env (jsShow resp.scan_id) (!projectProvided pk) s).2) := by
  simp [graphBody, hcs, hsub]

theorem scanGraphUrl_vuln_false (sid : String) :
    scanGraphUrl sid false =
      (scanGraphEndpoint ++ "/" ++ sid ++ "?include_licenses=true" ++ "&") ++
        "include_vulnerabilities=false" := by
  show scanGraphEndpoint ++ "/" ++ sid ++ "?include_licenses=true" ++
    ("&include_vulnerabilities=" ++ "false") = _
  rw [show ("&include_vulnerabilities=" : String) = "&" ++ "include_vulnerabilities=" from by decide]
  rw [String.append_assoc ("&" : String)]
  rw [← String.append_assoc _ ("&" : String)]
  congr 1

theorem scanGraphUrl_vuln_true (sid : String) :
    scanGraphUrl sid true =
      (scanGraphEndpoint ++ "/" ++ sid ++ "?include_licenses=true" ++ "&") ++
        "include_vulnerabilities=true" := by
  show scanGraphEndpoint ++ "/" ++ sid ++ "?include_licenses=true" ++
    ("&include_vulnerabilities=" ++ "true") = _
  rw [show ("&include_vulnerabilities=" : String) = "&" ++ "include_vulnerabilities=" from by decide]
  rw [String.append_assoc ("&" : String)]
  rw [← String.append_assoc _ ("&" : String)]
  congr 1

/-! ## Claim theorems -/

/-- **C1.** For every polling run, the poll loop terminates on the first
attempt whose HTTP status is 200, returning that response's payload
verbatim, with no sleep and no further poll request after that attempt:
with `k` leading in-progress (202) attempts, no cancellation through
attempt `k`, and a 200 on attempt `k`, the call returns exactly the 200
response, the trace holds exactly `k + 1` poll GETs, and its final event
is that very GET — nothing (in particular no sleep and no request) follows
it. -/
theorem getScanGraphResults_first_200 (env : Env) (scanId : String) (inc : Bool)
    (s k : Nat) (f : Nat → GraphResponse) (r : GraphResponse)
    (hk : k < MAX_ATTEMPTS)
    (hprev : ∀ j, j < k →
      env.cancelPoll j = none ∧ env.poll j = PollReply.fulfilled 202 (f j))
    (hck : env.cancelPoll k = none)
    (hpk : env.poll k = PollReply.fulfilled 200 r) :
    (getScanGraphResults env scanId inc s).2 = Result.ok (some r) ∧
    countGetReqs (getScanGraphResults env scanId inc s).1 = k + 1 ∧
    (getScanGraphResults env scanId inc s).1.getLast? =
      some (Event.getReq (scanGraphUrl scanId inc)) := by
  have hm : MAX_ATTEMPTS - k = (MAX_ATTEMPTS - k - 1) + 1 := by omega
  have hchar := pollLoop_prefix202 env (scanGraphUrl scanId inc) s k f 0 MAX_ATTEMPTS
    (by omega) (by intro j hj; simpa using hprev j hj)
  simp only [Nat.zero_add] at hchar
  rw [hm, pollLoop_200 env (scanGraphUrl scanId inc) s k (MAX_ATTEMPTS - k - 1) r hck hpk]
    at hchar
  unfold getScanGraphResults
  rw [hchar]
  refine ⟨rfl, ?_, ?_⟩
  · rw [countGetReqs_append, countGetReqs_prefix202]
    rfl
  · rw [List.getLast?_append]
    rfl

/-- **C1 witness**: in `envOne202` the second attempt is the first 200;
the call returns its payload after exactly two GETs, ending on the second
GET. -/
theorem getScanGraphResults_first_200_witness :
    (getScanGraphResults envOne202 "abc" true 7).2 = Result.ok (some ⟨none, none, some 3⟩) ∧
    countGetReqs (getScanGraphResults envOne202 "abc" true 7).1 = 1 + 1 ∧
    (getScanGraphResults envOne202 "abc" true 7).1.getLast? =
      some (Event.getReq (scanGraphUrl "abc" true)) :=
  getScanGraphResults_first_200 envOne202 "abc" true 7 1
    (fun _ => ⟨none, some 5, none⟩) ⟨none, none, some 3⟩
    (by decide) (by decide) (by decide) (by decide)

/-- **C2.** If every one of the first 60 poll attempts receives status 202
and none receives 200, the call fails with the timeout error and no 61st
poll request is issued: the trace holds exactly `MAX_ATTEMPTS = 60` poll
GETs. -/
theorem getScanGraphResults_timeout (env : Env) (scanId : String) (inc : Bool)
    (s : Nat) (f : Nat → GraphResponse)
    (h : ∀ j, j < MAX_ATTEMPTS →
      env.cancelPoll j = none ∧ env.poll j = PollReply.fulfilled 202 (f j)) :
    (getScanGraphResults env scanId inc s).2 = Result.thrown timeoutMsg ∧
    countGetReqs (getScanGraphResults env scanId inc s).1 = MAX_ATTEMPTS := by
  have hchar := pollLoop_prefix202 env (scanGraphUrl scanId inc) s MAX_ATTEMPTS f
    0 MAX_ATTEMPTS (Nat.le_refl _) (by intro j hj; simpa using h j hj)
  simp only [Nat.zero_add, Nat.sub_self] at hchar
  rw [show pollLoop env (scanGraphUrl scanId inc) s MAX_ATTEMPTS 0 =
    ([], Result.thrown timeoutMsg) from rfl] at hchar
  unfold getScanGraphResults
  rw [hchar]
  refine ⟨rfl, ?_⟩
  rw [countGetReqs_append, countGetReqs_prefix202]
  rfl

/-- **C2 witness**: in `envAll202` (every attempt answers 202) the call
times out after exactly 60 GETs. -/
theorem getScanGraphResults_timeout_witness :
    (getScanGraphResults envAll202 "id" true 5).2 = Result.thrown timeoutMsg ∧
    countGetReqs (getScanGraphResults envAll202 "id" true 5).1 = MAX_ATTEMPTS :=
  getScanGraphResults_timeout envAll202 "id" true 5
    (fun _ => ⟨none, some 50, none⟩) (by decide)

/-- **C9.** When the 60th (final-budget) poll attempt receives status 202,
the client still performs a full sleep of the poll interval after that
attempt before throwing the timeout error: on a run of 60 in-progress
responses the trace holds 60 sleeps and *ends* with a sleep — the timeout
is raised only after that final sleep completes, with no request after
it. -/
theorem getScanGraphResults_sleeps_before_timeout (env : Env) (scanId : String)
    (inc : Bool) (s : Nat) (f : Nat → GraphResponse)
    (h : ∀ j, j < MAX_ATTEMPTS →
      env.cancelPoll j = none ∧ env.poll j = PollReply.fulfilled 202 (f j)) :
    (getScanGraphResults env scanId inc s).2 = Result.thrown timeoutMsg ∧
    countSleeps (getScanGraphResults env scanId inc s).1 = MAX_ATTEMPTS ∧
    (getScanGraphResults env scanId inc s).1.getLast? = some (Event.sleep s) := by
  have hchar := pollLoop_prefix202 env (scanGraphUrl scanId inc) s MAX_ATTEMPTS f
    0 MAX_ATTEMPTS (Nat.le_refl _) (by intro j hj; simpa using h j hj)
  simp only [Nat.zero_add, Nat.sub_self] at hchar
  rw [show pollLoop env (scanGraphUrl scanId inc) s MAX_ATTEMPTS 0 =
    ([], Result.thrown timeoutMsg) from rfl] at hchar
  unfold getScanGraphResults
  rw [hchar]
  refine ⟨rfl, ?_, ?_⟩
  · rw [countSleeps_append, countSleeps_prefix202]
    rfl
  · rw [List.append_nil, show MAX_ATTEMPTS = 59 + 1 from rfl]
    exact prefix202_getLast (scanGraphUrl scanId inc) s 59 f

/-- **C9 witness**: in `envAll202` the trace ends with the 60th sleep and
only then the timeout error is thrown. -/
theorem getScanGraphResults_sleeps_before_timeout_witness :
    (getScanGraphResults envAll202 "id2" false 5).2 = Result.thrown timeoutMsg ∧
    countSleeps (getScanGraphResults envAll202 "id2" false 5).1 = MAX_ATTEMPTS ∧
    (getScanGraphResults envAll202 "id2" false 5).1.getLast? = some (Event.sleep 5) :=
  getScanGraphResults_sleeps_before_timeout envAll202 "id2" false 5
    (fun _ => ⟨none, some 50, none⟩) (by decide)

/-- **C3.** On any poll attempt reached with the loop still in progress, a
transport rejection whose status is neither 200 nor 202 — an HTTP error
status (genuine HTTP statuses are ≥ 100) or a transport-level failure with
no status at all — fails the call immediately: the thrown error's message
carries the status code when one exists (`unexpectedStatusMsg`), and the
captured message in either case (`transportFailureMsg`), and no further
poll request is issued (`k + 1` GETs in total). -/
theorem getScanGraphResults_unexpected_status (env : Env) (scanId : String)
    (inc : Bool) (s k : Nat) (f : Nat → GraphResponse) (st : Option Nat)
    (m : Option String)
    (hk : k < MAX_ATTEMPTS)
    (hprev : ∀ j, j < k →
      env.cancelPoll j = none ∧ env.poll j = PollReply.fulfilled 202 (f j))
    (hck : env.cancelPoll k = none)
    (hpk : env.poll k = PollReply.rejected st m)
    (hhttp : ∀ n, st = some n → 100 ≤ n)
    (h200 : st ≠ some 200) (h202 : st ≠ some 202) :
    (getScanGraphResults env scanId inc s).2 =
      Result.thrown (match st with
        | some n => unexpectedStatusMsg n m
        | none => transportFailureMsg m) ∧
    countGetReqs (getScanGraphResults env scanId inc s).1 = k + 1 := by
  have hm : MAX_ATTEMPTS - k = (MAX_ATTEMPTS - k - 1) + 1 := by omega
  have hchar := pollLoop_prefix202 env (scanGraphUrl scanId inc) s k f 0 MAX_ATTEMPTS
    (by omega) (by intro j hj; simpa using hprev j hj)
  simp only [Nat.zero_add] at hchar
  rw [hm] at hchar
  rcases st with _ | n
  · rw [pollLoop_rejected_none env (scanGraphUrl scanId inc) s k (MAX_ATTEMPTS - k - 1)
      m hck hpk] at hchar
    unfold getScanGraphResults
    rw [hchar]
    refine ⟨rfl, ?_⟩
    rw [countGetReqs_append, countGetReqs_prefix202]
    rfl
  · have hn : 100 ≤ n := hhttp n rfl
    rw [pollLoop_rejected_some env (scanGraphUrl scanId inc) s k (MAX_ATTEMPTS - k - 1)
      n m hck hpk (by simpa using h200) (by simpa using h202) (by omega)] at hchar
    unfold getScanGraphResults
    rw [hchar]
    refine ⟨rfl, ?_⟩
    rw [countGetReqs_append, countGetReqs_prefix202]
    rfl

/-- **C3 witness**: in `envRej500` the very first attempt is rejected with
status 500; the call fails at once with the status-carrying message after a
single GET. -/
theorem getScanGraphResults_unexpected_status_witness :
    (getScanGraphResults envRej500 "id" true 5).2 =
      Result.thrown (unexpectedStatusMsg 500 (some "boom")) ∧
    countGetReqs (getScanGraphResults envRej500 "id" true 5).1 = 0 + 1 :=
  getScanGraphResults_unexpected_status envRej500 "id" true 5 0
    (fun _ => emptyResponse) (some 500) (some "boom")
    (by decide) (by decide) (by decide) (by decide) (by decide) (by decide) (by decide)

/-- **C4 counterexample.** The claim states that every 202 response that
*carries* a `progress_percentage` field updates the progress sink to that
value before the iteration's sleep. It is false on the code: in
`env202zero`, attempt 0 answers 202 with `progress_percentage` present and
equal to `0`, yet the code's JavaScript truthiness test
`if (response.progress_percentage)` skips the write — the trace goes
straight from the GET to the sleep and contains no progress write at
all. -/
theorem progress_zero_not_written :
    env202zero.poll 0 = PollReply.fulfilled 202 ⟨none, some 0, none⟩ ∧
    (getScanGraphResults env202zero "id" true 5).1 =
      [Event.checkCanceled, Event.getReq (scanGraphUrl "id" true), Event.sleep 5,
       Event.checkCanceled, Event.getReq (scanGraphUrl "id" true)] ∧
    (getScanGraphResults env202zero "id" true 5).1.filter isSetPercentage = [] := by
  refine ⟨rfl, ?_, ?_⟩ <;> decide

/-- **C4 (amended).** For every poll attempt that receives status 202: if
the response carries a *truthy* (present and non-zero) `progress_percentage`,
the progress sink is set to exactly that value before the sleep of that
iteration; if the field is absent — or present but equal to `0`, which
JavaScript truthiness treats the same — the sink is not written during that
iteration. -/
theorem progress_written_iff_truthy (env : Env) (url : String) (s i fuel : Nat)
    (resp : GraphResponse)
    (hc : env.cancelPoll i = none)
    (hp : env.poll i = PollReply.fulfilled 202 resp) :
    ∃ rest r,
      pollLoop env url s i (fuel + 1) =
        ([Event.checkCanceled, Event.getReq url] ++
          (match resp.progress_percentage with
           | some p => if p = 0 then [] else [Event.setPercentage p]
           | none => []) ++ [Event.sleep s] ++ rest, r) := by
  refine ⟨(pollLoop env url s (i + 1) fuel).1, (pollLoop env url s (i + 1) fuel).2, ?_⟩
  rw [pollLoop_202 env url s i fuel resp hc hp]
  congr 1
  unfold progressEvents
  rcases resp.progress_percentage with _ | p
  · rfl
  · dsimp only
    by_cases h0 : p = 0
    · subst h0; rfl
    · simp [h0]

/-- **C4 witness**: applied to `env202zero`'s attempt 0, whose 202 response
carries `progress_percentage = 0`: the iteration's trace goes from the GET
directly to the sleep with no sink write. -/
theorem progress_written_iff_truthy_witness :
    ∃ rest r,
      pollLoop env202zero (scanGraphUrl "id" true) 5 0 (59 + 1) =
        ([Event.checkCanceled, Event.getReq (scanGraphUrl "id" true)] ++
          (match (some 0 : Option Nat) with
           | some p => if p = 0 then [] else [Event.setPercentage p]
           | none => []) ++ [Event.sleep 5] ++ rest, r) :=
  progress_written_iff_truthy env202zero (scanGraphUrl "id" true) 5 0 59
    ⟨none, some 0, none⟩ (by decide) (by decide)

/-- **C5.** For an absent/empty (falsy) request, `graph` returns the empty
result object immediately: the trace contains no POST and no GET — indeed
its only event is the guaranteed `setPercentage(100)` cleanup on exit. -/
theorem graph_empty_request (env : Env) (projectKey : Option String) (sleepMs : Nat) :
    graph env none projectKey sleepMs =
      ([Event.setPercentage 100], Result.ok (some emptyResponse)) ∧
    countGetReqs (graph env none projectKey sleepMs).1 = 0 ∧
    (graph env none projectKey sleepMs).1.filter isPostReq = [] ∧
    (graph env none projectKey sleepMs).1.getLast? = some (Event.setPercentage 100) :=
  ⟨rfl, rfl, rfl, rfl⟩

/-- **C6.** For a run that reaches the network: with a present, non-empty
`projectKey` the submit URL is exactly the endpoint with `?project=<key>`
appended and every poll GET's URL contains `include_vulnerabilities=false`;
with an absent or empty `projectKey` the submit URL is the bare endpoint
(no project query parameter) and every poll GET's URL contains
`include_vulnerabilities=true`. -/
theorem graph_request_urls (env : Env) (req : GraphRequestModel) (pk : Option String)
    (s : Nat) (resp : GraphResponse)
    (hcs : env.cancelSubmit = none) (hsub : env.submit = Except.ok resp) :
    (graph env (some req) pk s).1.filter isPostReq = [Event.postReq (submitUrl pk)] ∧
    (∀ u, Event.getReq u ∈ (graph env (some req) pk s).1 →
      u = scanGraphUrl (jsShow resp.scan_id) (!projectProvided pk)) ∧
    (if projectProvided pk = true then
      submitUrl pk = scanGraphEndpoint ++ ("?project=" ++ jsShow pk) ∧
      ∃ pre, scanGraphUrl (jsShow resp.scan_id) (!projectProvided pk) =
        pre ++ "include_vulnerabilities=false"
    else
      submitUrl pk = scanGraphEndpoint ∧
      ∃ pre, scanGraphUrl (jsShow resp.scan_id) (!projectProvided pk) =
        pre ++ "include_vulnerabilities=true") := by
  have hg : (graph env (some req) pk s).1 =
      ([Event.checkCanceled, Event.postReq (submitUrl pk)] ++
        (getScanGraphResults env (jsShow resp.scan_id) (!projectProvided pk) s).1) ++
      [Event.setPercentage 100] := by
    rw [graph_eq, graphBody_some env req pk s resp hcs hsub]
  refine ⟨?_, ?_, ?_⟩
  · rw [hg, List.filter_append, List.filter_append]
    rw [show (getScanGraphResults env (jsShow resp.scan_id) (!projectProvided pk) s).1 =
      (pollLoop env (scanGraphUrl (jsShow resp.scan_id) (!projectProvided pk)) s
        0 MAX_ATTEMPTS).1 from rfl]
    rw [pollLoop_no_postReq]
    rfl
  · intro u hu
    rw [hg] at hu
    simp at hu
    exact pollLoop_getReq_url env _ s MAX_ATTEMPTS 0 u hu
  · by_cases hb : projectProvided pk = true
    · rw [if_pos hb]
      refine ⟨by simp [submitUrl, hb], ?_⟩
      rw [hb]
      exact ⟨_, scanGraphUrl_vuln_false _⟩
    · rw [if_neg hb]
      have hb' : projectProvided pk = false := by
        cases h : projectProvided pk
        · rfl
        · exact absurd h hb
      refine ⟨by simp [submitUrl, hb'], ?_⟩
      rw [hb']
      exact ⟨_, scanGraphUrl_vuln_true _⟩

/-- **C6 witness**: with project key `proj` the submit POST goes to
`api/v1/scan/graph?project=proj` and the poll URL carries
`include_vulnerabilities=false`. -/
theorem graph_request_urls_witness :
    (graph envQuick200 (some ⟨1⟩) (some "proj") 5).1.filter isPostReq =
      [Event.postReq (submitUrl (some "proj"))] ∧
    (if projectProvided (some "proj") = true then
      submitUrl (some "proj") = scanGraphEndpoint ++ ("?project=" ++ jsShow (some "proj")) ∧
      ∃ pre, scanGraphUrl (jsShow (some "xyz" : Option String))
          (!projectProvided (some "proj")) = pre ++ "include_vulnerabilities=false"
    else
      submitUrl (some "proj") = scanGraphEndpoint ∧
      ∃ pre, scanGraphUrl (jsShow (some "xyz" : Option String))
          (!projectProvided (some "proj")) = pre ++ "include_vulnerabilities=true") :=
  ⟨(graph_request_urls envQuick200 ⟨1⟩ (some "proj") 5 ⟨some "xyz", none, none⟩ rfl rfl).1,
   (graph_request_urls envQuick200 ⟨1⟩ (some "proj") 5 ⟨some "xyz", none, none⟩ rfl rfl).2.2⟩

/-- **C7.** If `checkCanceled` raises before poll attempt `k` (the first
`k` attempts, indices `0 ≤ j < k`, were in progress), no request for
attempt `k` is sent — the trace holds exactly `k` poll GETs — the raised
error propagates to the caller unwrapped (`Result.raised`, not a client
`Result.thrown`), and the trace still ends with the forced
`setPercentage(100)`. -/
theorem graph_cancel_propagates (env : Env) (req : GraphRequestModel) (pk : Option String)
    (s k e : Nat) (f : Nat → GraphResponse) (resp : GraphResponse)
    (hcs : env.cancelSubmit = none) (hsub : env.submit = Except.ok resp)
    (hk : k < MAX_ATTEMPTS)
    (hprev : ∀ j, j < k →
      env.cancelPoll j = none ∧ env.poll j = PollReply.fulfilled 202 (f j))
    (hck : env.cancelPoll k = some e) :
    (graph env (some req) pk s).2 = Result.raised e ∧
    countGetReqs (graph env (some req) pk s).1 = k ∧
    (graph env (some req) pk s).1.getLast? = some (Event.setPercentage 100) := by
  have hm : MAX_ATTEMPTS - k = (MAX_ATTEMPTS - k - 1) + 1 := by omega
  have hchar := pollLoop_prefix202 env
    (scanGraphUrl (jsShow resp.scan_id) (!projectProvided pk)) s k f 0 MAX_ATTEMPTS
    (by omega) (by intro j hj; simpa using hprev j hj)
  simp only [Nat.zero_add] at hchar
  rw [hm, pollLoop_cancel env _ s k (MAX_ATTEMPTS - k - 1) e hck] at hchar
  have hfull : graph env (some req) pk s =
      (([Event.checkCanceled, Event.postReq (submitUrl pk)] ++
        (prefix202 f (scanGraphUrl (jsShow resp.scan_id) (!projectProvided pk)) s k ++
          [Event.checkCanceled])) ++ [Event.setPercentage 100],
       Result.raised e) := by
    rw [graph_eq, graphBody_some env req pk s resp hcs hsub]
    rw [show getScanGraphResults env (jsShow resp.scan_id) (!projectProvided pk) s =
      pollLoop env (scanGraphUrl (jsShow resp.scan_id) (!projectProvided pk)) s
        0 MAX_ATTEMPTS from rfl]
    rw [hchar]
  rw [hfull]
  refine ⟨rfl, ?_, ?_⟩
  · rw [show (((([Event.checkCanceled, Event.postReq (submitUrl pk)] ++
      (prefix202 f (scanGraphUrl (jsShow resp.scan_id) (!projectProvided pk)) s k ++
        [Event.checkCanceled])) ++ [Event.setPercentage 100]),
      Result.raised e) : List Event × Result).1 =
      ([Event.checkCanceled, Event.postReq (submitUrl pk)] ++
        (prefix202 f (scanGraphUrl (jsShow resp.scan_id) (!projectProvided pk)) s k ++
          [Event.checkCanceled])) ++ [Event.setPercentage 100] from rfl]
    rw [countGetReqs_append, countGetReqs_append, countGetReqs_append,
      countGetReqs_prefix202]
    have h1 : countGetReqs [Event.checkCanceled, Event.postReq (submitUrl pk)] = 0 := rfl
    have h2 : countGetReqs [Event.checkCanceled] = 0 := rfl
    have h3 : countGetReqs [Event.setPercentage 100] = 0 := rfl
    omega
  · exact List.getLast?_concat _

/-- **C7 witness**: in `envCancelAt0` the cancel check before the very
first poll attempt throws error 9: no GET is ever sent, error 9 propagates,
and the trace still ends with `setPercentage(100)`. -/
theorem graph_cancel_propagates_witness :
    (graph envCancelAt0 (some ⟨1⟩) none 5).2 = Result.raised 9 ∧
    countGetReqs (graph envCancelAt0 (some ⟨1⟩) none 5).1 = 0 ∧
    (graph envCancelAt0 (some ⟨1⟩) none 5).1.getLast? =
      some (Event.setPercentage 100) :=
  graph_cancel_propagates envCancelAt0 ⟨1⟩ none 5 0 9 (fun _ => emptyResponse)
    ⟨some "xyz", none, none⟩ rfl rfl (by decide) (by decide) rfl

/-- **C8.** On every exit path of `graph` — successful result,
unexpected-status failure, transport failure, timeout, or cancellation, in
any environment whatsoever — the very last event of the trace is the
progress sink being set to 100% (the `finally` clause). -/
theorem graph_sets_100_on_exit (env : Env) (request : Option GraphRequestModel)
    (projectKey : Option String) (sleepMs : Nat) :
    (graph env request projectKey sleepMs).1.getLast? =
      some (Event.setPercentage 100) := by
  rw [graph_eq]
  exact List.getLast?_concat _

/-- **C10 counterexample.** The claim states that, provided a rejected
transport call never reports status 202, the loop "always takes a throwing
branch" on rejected attempts. False on the code: in `envRej200` every
rejection carries status 200 — so the run satisfies the no-202
precondition at each of its attempts (its only attempt's rejection status
is 200, shown in the first conjunct) — yet the very first attempt takes
the `receivedStatus === 200` *return* branch, ending the call normally
with `Result.ok none` (the code's `return response` at the point where
`response` is `undefined`): a non-throwing exit. -/
theorem rejected_200_returns_undefined :
    envRej200.poll 0 = PollReply.rejected (some 200) (some "nope") ∧
    getScanGraphResults envRej200 "id0" true 5 =
      ([Event.checkCanceled, Event.getReq (scanGraphUrl "id0" true)],
       Result.ok none) :=
  ⟨rfl, rfl⟩

/-- **C10 (amended).** On a rejected poll attempt the awaited `response`
is `undefined` (`responseOf` of a rejection is `none`) and only the status
captured from the rejection reason is consulted. Provided no rejected
transport call reports status 202, the run never ends in the
undefined-property-access `TypeError` — that branch is unreachable — and
every reached rejected attempt whose reported status is also not 200 takes
a throwing branch, ending the call at once with a thrown error. (A
rejection reporting status 200 instead takes the return branch, returning
the `undefined` response without dereferencing it, as the counterexample
shows.) -/
theorem rejected_attempts_throw (env : Env) (scanId : String) (inc : Bool) (s : Nat)
    (h : ∀ i st m, env.poll i = PollReply.rejected st m → st ≠ some 202) :
    (∀ st m, responseOf (PollReply.rejected st m) = none) ∧
    (getScanGraphResults env scanId inc s).2 ≠ Result.typeError ∧
    (∀ i fuel st m, env.cancelPoll i = none → env.poll i = PollReply.rejected st m →
      st ≠ some 200 →
      ∃ msg, pollLoop env (scanGraphUrl scanId inc) s i (fuel + 1) =
        ([Event.checkCanceled, Event.getReq (scanGraphUrl scanId inc)],
         Result.thrown msg)) := by
  refine ⟨fun _ _ => rfl,
    pollLoop_no_typeError env (scanGraphUrl scanId inc) s h MAX_ATTEMPTS 0, ?_⟩
  intro i fuel st m hc hp h200
  have h202 := h i st m hp
  rcases st with _ | n
  · exact ⟨transportFailureMsg m,
      pollLoop_rejected_none env (scanGraphUrl scanId inc) s i fuel m hc hp⟩
  · by_cases h0 : n = 0
    · subst h0
      exact ⟨transportFailureMsg m,
        pollLoop_rejected_zero env (scanGraphUrl scanId inc) s i fuel m hc hp⟩
    · exact ⟨unexpectedStatusMsg n m,
        pollLoop_rejected_some env (scanGraphUrl scanId inc) s i fuel n m hc hp
          (by simpa using h200) (by simpa using h202) h0⟩

/-- **C10 witness**: in `envRej500` (every attempt rejected with status
500 — never 202, never 200) the call does not end in the undefined-access
`TypeError`, and the first attempt's rejection takes a throwing branch
immediately. -/
theorem rejected_attempts_throw_witness :
    (getScanGraphResults envRej500 "idx" true 5).2 ≠ Result.typeError ∧
    (∃ msg, pollLoop envRej500 (scanGraphUrl "idx" true) 5 0 (59 + 1) =
      ([Event.checkCanceled, Event.getReq (scanGraphUrl "idx" true)],
       Result.thrown msg)) :=
  ⟨(rejected_attempts_throw envRej500 "idx" true 5
      (by intro i st m hh
          injection hh with h1 h2
          rw [← h1]
          decide)).2.1,
   (rejected_attempts_throw envRej500 "idx" true 5
      (by intro i st m hh
          injection hh with h1 h2
          rw [← h1]
          decide)).2.2 0 59 (some 500) (some "boom") rfl rfl (by decide)⟩

end XrayScanClient
